import Mathlib

/-!
Shallow embedding of the `otel-agent-go` demonstration service
(`src/main.go` and `src/agent/agent.go`) and proofs of the spec claims.

External collaborators (the OpenTelemetry SDK export pipeline, the JSON
codec of the standard library, the HTTP transport) are modelled at the
boundary the repository code observes: span start/end and network-attempt
side effects become explicit event lists, the outcome of the outbound
call plus JSON decode becomes an input parameter, and serialization of
the response envelope is embedded as a function into a JSON value tree.
-/

/-- JSON value tree, the image of Go `interface\x7b\x7d` values produced by
`encoding/json`.  Numbers are kept as integers: every concrete number in
this development is integral, and no claim depends on float behavior. -/
inductive Json where
  | null
  | bool (b : Bool)
  | num (n : Int)
  | str (s : String)
  | arr (xs : List Json)
  | obj (fields : List (String × Json))

/-- The `Response` struct of `src/main.go`: four fields, all tagged
`omitempty`.  Go zero values (empty string, nil interface) are the
defaults; `data` is `none` when the Go `Data interface\x7b\x7d` field is the
zero interface. -/
structure Response where
  message : String := ""
  url : String := ""
  data : Option Json := none
  error : String := ""

/-- Serialization of `Response` by `encoding/json`: fields appear in
struct order and `omitempty` drops zero values (empty strings, unset
`data`). -/
def encodeResponse (r : Response) : Json :=
  Json.obj
    ((if r.message = "" then [] else [("message", Json.str r.message)]) ++
     (if r.url = "" then [] else [("url", Json.str r.url)]) ++
     (match r.data with
      | none => []
      | some d => [("data", d)]) ++
     (if r.error = "" then [] else [("error", Json.str r.error)]))

/-- One HTTP response as committed by the handler: status code,
content type header, serialized JSON body.  `respondWithJSON` in the
source calls `WriteHeader(code)` only when `code != 200`; Go's
`net/http` defaults the status to 200 on first write, so the effective
status is `code` on both branches. -/
structure HttpReply where
  status : Nat
  contentType : String
  body : Json

/-- `respondWithJSON` from `src/main.go`. -/
def respondWithJSON (code : Nat) (payload : Response) : HttpReply :=
  { status := code
  , contentType := "application/json"
  , body := encodeResponse payload }

/-- `respondWithError` from `src/main.go`. -/
def respondWithError (code : Nat) (message : String) : HttpReply :=
  respondWithJSON code { error := message }

/-- Outcome of `client.Get(url)` followed by
`json.NewDecoder(response.Body).Decode(&data)`, as observed by
`handleExternalService`:
  - `netErr`: the `client.Get` call itself returned an error
    (connection refused, timeout, DNS failure);
  - `decodeErr status`: the call returned an HTTP response with the
    given status but the body did not decode into
    `map[string]interface\x7b\x7d`;
  - `decodeOk status d`: the call returned a response with the given
    status and the body decoded to value `d` (an object, or `Json.null`
    for a body `null`, which Go decodes into a nil map without error). -/
inductive FetchOutcome where
  | netErr
  | decodeErr (status : Nat)
  | decodeOk (status : Nat) (d : Json)

/-- Telemetry and network side effects visible at the repository's code
boundary.  `inboundStart`/`inboundEnd` are the span operations of the
custom middleware in `StartAgent`; `outboundStart`/`outboundEnd` are the
child span the instrumented transport of `GetHTTPClient` wraps around
each outbound call; `netAttempt` is one transport-level attempt. -/
inductive SpanEvent where
  | inboundStart
  | inboundEnd
  | outboundStart
  | outboundEnd
  | netAttempt (url : String)
deriving DecidableEq

/-- `client.Get(url)` through the instrumented client: the otelhttp
transport starts a child span, performs exactly one transport attempt,
and ends the child span on every exit path, returning the outcome. -/
def clientGet (url : String) (o : FetchOutcome) :
    List SpanEvent × FetchOutcome :=
  ([SpanEvent.outboundStart, SpanEvent.netAttempt url,
    SpanEvent.outboundEnd], o)

/-- `handleExternalService` from `src/main.go`: performs the outbound
GET, then branches exactly as the source does — error from `Get` gives
500 with the route's configured label, decode failure gives 500 with the
generic decode label, decode success gives 200 with the decoded value in
`data`.  The upstream status code is never read. -/
def handleExternalService (url : String) (o : FetchOutcome)
    (errorMessage : String) : List SpanEvent × HttpReply :=
  let res := clientGet url o
  match res.2 with
  | FetchOutcome.netErr =>
      (res.1, respondWithError 500 errorMessage)
  | FetchOutcome.decodeErr _ =>
      (res.1, respondWithError 500 "Erro ao decodificar a resposta")
  | FetchOutcome.decodeOk _ d =>
      (res.1, respondWithJSON 200 { data := some d })

/-- The routes registered on the router in `main`. -/
inductive Route where
  | root
  | buteco
  | fileManagerUrlRoute
  | externalService1
  | externalService2
  | localService
  | fileManagerService
  | externalService3
deriving DecidableEq

/-- The configured human-readable error label of each proxy route
(`none` for the static routes, which perform no outbound call). -/
def routeLabel : Route → Option String
  | Route.externalService1 => some "Erro ao chamar o serviço externo 1"
  | Route.externalService2 => some "Erro ao chamar o serviço externo 2"
  | Route.localService => some "Erro ao chamar o serviço local"
  | Route.fileManagerService =>
      some "Erro ao chamar o serviço de file manager"
  | Route.externalService3 => some "Erro ao chamar o serviço externo 3"
  | _ => none

/-- The handler registered for each route in `main`, as a function of
the resolved file-manager base URL `fm` and, for proxy routes, the
outcome `o` of the outbound call. -/
def appHandler (fm : String) (r : Route) (o : FetchOutcome) :
    List SpanEvent × HttpReply :=
  match r with
  | Route.root =>
      ([], respondWithJSON 200 { message := "Hello, Open!" })
  | Route.buteco =>
      ([], respondWithJSON 200 { message := "Bora tomar uma?" })
  | Route.fileManagerUrlRoute =>
      ([], respondWithJSON 200 { url := fm })
  | Route.externalService1 =>
      handleExternalService "https://jsonplaceholder.typicode.com/posts/1"
        o "Erro ao chamar o serviço externo 1"
  | Route.externalService2 =>
      handleExternalService "https://jsonplaceholder.typicode.com/users/1"
        o "Erro ao chamar o serviço externo 2"
  | Route.localService =>
      handleExternalService "http://localhost:3000/buteco"
        o "Erro ao chamar o serviço local"
  | Route.fileManagerService =>
      handleExternalService (fm ++ "/files")
        o "Erro ao chamar o serviço de file manager"
  | Route.externalService3 =>
      handleExternalService "https://jsonplaceholder.typicode.com/albums/1"
        o "Erro ao chamar o serviço externo 3"

/-- The custom middleware installed by `StartAgent`: starts one inbound
span, runs the wrapped handler, and ends the span via `defer` on every
exit path. -/
def middlewareWrap (handled : List SpanEvent × HttpReply) :
    List SpanEvent × HttpReply :=
  (SpanEvent.inboundStart :: handled.1 ++ [SpanEvent.inboundEnd],
   handled.2)

/-- One request routed through the router returned by `StartAgent`:
the middleware wraps the route's registered handler. -/
def routerHandle (fm : String) (r : Route) (o : FetchOutcome) :
    List SpanEvent × HttpReply :=
  middlewareWrap (appHandler fm r o)

/-- The `Config` struct of `src/agent/agent.go`. -/
structure Config where
  serviceName : String
  serviceVersion : String
  deploymentEnvironment : String
  traceEndpoint : String
  metricEndpoint : String

/-- `DefaultConfig` from `src/agent/agent.go`: reads the five
environment variables directly.  `env` models `os.Getenv`, which
returns the empty string for an unset variable. -/
def DefaultConfig (env : String → String) : Config :=
  { serviceName := env "SERVICE_NAME"
  , serviceVersion := env "SERVICE_VERSION"
  , deploymentEnvironment := env "DEPLOYMENT_ENVIRONMENT"
  , traceEndpoint := env "OTEL_EXPORTER_OTLP_TRACES_ENDPOINT"
  , metricEndpoint := env "OTEL_EXPORTER_OTLP_METRICS_ENDPOINT" }

/-- The effective values `StartAgent` wires into the telemetry
pipeline: resource attributes, and the endpoint URLs handed to
`otlptracehttp.WithEndpointURL` / `otlpmetrichttp.WithEndpointURL`. -/
structure AgentSettings where
  serviceName : String
  serviceVersion : String
  deploymentEnvironment : String
  traceExporterEndpointURL : String
  metricExporterEndpointURL : String

/-- The configuration-resolution logic of `StartAgent`
(`src/agent/agent.go`): the three resource attributes fall back to
documented defaults when empty; the two exporter endpoint URLs are
passed through unchanged, with no fallback. -/
def startAgentSettings (config : Config) : AgentSettings :=
  { serviceName :=
      if config.serviceName = "" then "default-service"
      else config.serviceName
  , serviceVersion :=
      if config.serviceVersion = "" then "1.0.0"
      else config.serviceVersion
  , deploymentEnvironment :=
      if config.deploymentEnvironment = "" then "development"
      else config.deploymentEnvironment
  , traceExporterEndpointURL := config.traceEndpoint
  , metricExporterEndpointURL := config.metricEndpoint }

/-- The listen port in `main` (`src/main.go`): the literal 3000, read
from no environment variable. -/
def mainPort : Nat := 3000

/-- The file-manager base URL resolved in `main`: the value of
`NEXT_PUBLIC_FILE_MANAGER_URL`, or `http://localhost:8085` when that
variable is unset (empty). -/
def mainFileManagerURL (env : String → String) : String :=
  if env "NEXT_PUBLIC_FILE_MANAGER_URL" = "" then "http://localhost:8085"
  else env "NEXT_PUBLIC_FILE_MANAGER_URL"

/-- An HTTP round-trip transport, modelled by the two properties the
claims refer to: whether it is wrapped by the otelhttp instrumentation,
and its governing timeout (`none` when it imposes no bound of its
own). -/
structure Transport where
  instrumented : Bool
  timeout : Option Nat

/-- `http.DefaultTransport`, the process-wide default transport: not
instrumented; its default timeout is external stdlib configuration and
is taken as a parameter. -/
def defaultTransport (t : Option Nat) : Transport :=
  { instrumented := false, timeout := t }

/-- `otelhttp.NewTransport(base, ...)`: wraps the base transport with
trace propagation and child-span instrumentation; it adds no retry and
changes no timeout. -/
def otelhttpNewTransport (base : Transport) : Transport :=
  { base with instrumented := true }

/-- The Go `http.Client` fields the claims depend on.  A zero `Timeout`
field (`none`) means the client adds no timeout of its own. -/
structure HttpClient where
  transport : Transport
  timeout : Option Nat

/-- `GetHTTPClient` from `src/agent/agent.go`: an `http.Client` whose
transport is the instrumented wrapper around `http.DefaultTransport`
and whose `Timeout` field is left at its zero value. -/
def GetHTTPClient (defaultTransportTimeout : Option Nat) : HttpClient :=
  { transport :=
      otelhttpNewTransport (defaultTransport defaultTransportTimeout)
  , timeout := none }

/-- The timeout governing one call through a client: the client-level
`Timeout` when set (Go enforces the tighter of the two bounds), else
whatever the transport provides. -/
def effectiveTimeout (c : HttpClient) : Option Nat :=
  match c.timeout, c.transport.timeout with
  | some a, some b => some (min a b)
  | some a, none => some a
  | none, b => b

/-- Outcome of `http.NewRequestWithContext` as observed by the agent
code: either the stdlib reports a construction error (malformed URL),
or it yields a request value. -/
inductive BuildOutcome where
  | buildErr (e : String)
  | builtReq (req : String)
deriving DecidableEq

/-- `GetRequestWithContext` from `src/agent/agent.go`: calls
`http.NewRequestWithContext` and passes its result through unchanged
(error as error, request as request). -/
def GetRequestWithContext (o : BuildOutcome) : Except String String :=
  match o with
  | BuildOutcome.buildErr e => Except.error e
  | BuildOutcome.builtReq req => Except.ok req

/-- `ExecuteRequest` from `src/agent/agent.go`: builds the request via
`GetRequestWithContext`; on error returns `(nil, err)` with no network
call; otherwise performs exactly one `client.Do` on the constructed
request and returns its result unchanged.  The event list records each
`client.Do` invocation; `doFn` models the network's answer. -/
def ExecuteRequest (o : BuildOutcome) (doFn : String → FetchOutcome) :
    List String × Except String FetchOutcome :=
  match GetRequestWithContext o with
  | Except.error e => ([], Except.error e)
  | Except.ok req => ([req], Except.ok (doFn req))

/-- Modelled from the spec: the Context Carrier of section 4.1 — the
propagable correlation state (trace id, span id, sampling flag) that
`StartAgent` configures the composite propagator (`b3.New()`,
`propagation.TraceContext`, `propagation.Baggage`) to carry.  The
propagator implementations live in the external otel libraries, not
under `src/`; they are embedded here by their wire formats.  Identifiers
are hex digit strings, kept as character lists. -/
structure Carrier where
  traceId : List Char
  spanId : List Char
  sampled : Bool

/-- The b3 single-header value: `traceId-spanId-flag`. -/
def b3Value (c : Carrier) : List Char :=
  c.traceId ++ ('-' :: (c.spanId ++ ('-' :: [if c.sampled then '1' else '0'])))

/-- The W3C `traceparent` header value:
`00-traceId-spanId-flags` with flags `01` (sampled) or `00`. -/
def traceparentValue (c : Carrier) : List Char :=
  '0' :: '0' :: '-' ::
    (c.traceId ++
      ('-' :: (c.spanId ++ ('-' :: ['0', if c.sampled then '1' else '0']))))

/-- `inject`: the composite propagator writes each member's header into
the outgoing request — the b3 header and the traceparent header (the
baggage propagator carries no trace identifiers). -/
def injectCarrier (c : Carrier) : List (String × List Char) :=
  [("b3", b3Value c), ("traceparent", traceparentValue c)]

/-- `true` for every character other than the `-` field delimiter. -/
def notDash (ch : Char) : Bool := ch != '-'

/-- Split a value of shape `tid-sid-flags` at its two `-` delimiters. -/
def parseIds (v : List Char) : Option (List Char × List Char × List Char) :=
  let tid := v.takeWhile notDash
  let r1 := v.dropWhile notDash
  if r1.head? = some '-' then
    let rest := r1.tail
    let sid := rest.takeWhile notDash
    let r2 := rest.dropWhile notDash
    if r2.head? = some '-' then some (tid, sid, r2.tail)
    else none
  else none

/-- Parse a b3 single-header value back into a carrier. -/
def parseB3 (v : List Char) : Option Carrier :=
  (parseIds v).map fun p =>
    { traceId := p.1, spanId := p.2.1, sampled := p.2.2 == ['1'] }

/-- Parse a `traceparent` header value back into a carrier: strip the
`00-` version prefix, then split the identifiers. -/
def parseTraceparent (v : List Char) : Option Carrier :=
  if v.take 3 = ['0', '0', '-'] then
    (parseIds (v.drop 3)).map fun p =>
      { traceId := p.1, spanId := p.2.1, sampled := p.2.2 == ['0', '1'] }
  else none

/-- Header lookup by name. -/
def headerLookup (name : String) (hs : List (String × List Char)) :
    Option (List Char) :=
  (hs.find? (fun p => p.1 = name)).map Prod.snd

/-- `extract`: the composite propagator runs its members in order (b3,
then TraceContext, then Baggage); a later member that finds its header
overrides the context extracted by an earlier one, so a present
`traceparent` header wins over `b3`. -/
def extractCarrier (hs : List (String × List Char)) : Option Carrier :=
  match headerLookup "traceparent" hs with
  | some v => parseTraceparent v
  | none => (headerLookup "b3" hs).bind parseB3

theorem takeWhile_notDash_append (a b : List Char) (h : '-' ∉ a) :
    (a ++ '-' :: b).takeWhile notDash = a := by
  induction a with
  | nil => simp [notDash]
  | cons x xs ih =>
      rw [List.mem_cons, not_or] at h
      have hx : notDash x = true := by
        simp only [notDash, bne_iff_ne, ne_eq]
        exact fun hEq => h.1 hEq.symm
      simp only [List.cons_append, List.takeWhile_cons, hx, if_true]
      rw [ih h.2]

theorem dropWhile_notDash_append (a b : List Char) (h : '-' ∉ a) :
    (a ++ '-' :: b).dropWhile notDash = '-' :: b := by
  induction a with
  | nil => simp [notDash]
  | cons x xs ih =>
      rw [List.mem_cons, not_or] at h
      have hx : notDash x = true := by
        simp only [notDash, bne_iff_ne, ne_eq]
        exact fun hEq => h.1 hEq.symm
      simp only [List.cons_append, List.dropWhile_cons, hx, if_true]
      exact ih h.2

theorem parseIds_delimited (tid sid fl : List Char)
    (ht : '-' ∉ tid) (hs : '-' ∉ sid) :
    parseIds (tid ++ ('-' :: (sid ++ ('-' :: fl)))) = some (tid, sid, fl) := by
  simp only [parseIds]
  rw [takeWhile_notDash_append tid _ ht, dropWhile_notDash_append tid _ ht]
  simp only [List.head?_cons, List.tail_cons, if_pos rfl]
  rw [takeWhile_notDash_append sid _ hs, dropWhile_notDash_append sid _ hs]
  simp

theorem parseTraceparent_traceparentValue (c : Carrier)
    (ht : '-' ∉ c.traceId) (hs : '-' ∉ c.spanId) :
    parseTraceparent (traceparentValue c) = some c := by
  obtain ⟨tid, sid, smp⟩ := c
  simp only [traceparentValue, parseTraceparent, List.take, List.drop,
    if_true]
  rw [parseIds_delimited tid sid _ ht hs]
  cases smp <;> simp

/-- C1: for every inbound HTTP request handled by the router returned by
`StartAgent`, exactly one inbound span is started and exactly one is
ended before the handler returns, on every code path (success, network
error, decode error). -/
theorem inbound_span_started_and_ended_once (fm : String) (r : Route)
    (o : FetchOutcome) :
    ((routerHandle fm r o).1.count SpanEvent.inboundStart = 1) ∧
    ((routerHandle fm r o).1.count SpanEvent.inboundEnd = 1) := by
  cases r <;> cases o <;>
    simp [routerHandle, middlewareWrap, appHandler, handleExternalService,
      clientGet, List.count_cons, List.count_append]

/-- C2: for every proxy route, a transport-level failure of the
outbound GET yields a 500 response whose JSON body has `error` as its
only field, set to the route's configured label. -/
theorem proxy_network_error_responds_500_label (fm : String) (r : Route)
    (lbl : String) (h : routeLabel r = some lbl) :
    (routerHandle fm r FetchOutcome.netErr).2.status = 500 ∧
    (routerHandle fm r FetchOutcome.netErr).2.body =
      Json.obj [("error", Json.str lbl)] := by
  cases r <;> simp only [routeLabel, Option.some.injEq,
      reduceCtorEq] at h <;>
    subst h <;>
    simp [routerHandle, middlewareWrap, appHandler, handleExternalService,
      clientGet, respondWithError, respondWithJSON, encodeResponse]

theorem proxy_network_error_responds_500_label_witness :
    (routerHandle "http://localhost:8085" Route.externalService1
        FetchOutcome.netErr).2.status = 500 ∧
    (routerHandle "http://localhost:8085" Route.externalService1
        FetchOutcome.netErr).2.body =
      Json.obj [("error", Json.str "Erro ao chamar o serviço externo 1")] :=
  proxy_network_error_responds_500_label "http://localhost:8085"
    Route.externalService1 "Erro ao chamar o serviço externo 1" rfl

/-- C3: for every proxy route, when the outbound call succeeds but the
body does not decode as a JSON object mapping, the handler responds 500
with the generic decode-error label. -/
theorem proxy_decode_error_responds_500 (fm : String) (r : Route)
    (lbl : String) (status : Nat) (h : routeLabel r = some lbl) :
    (routerHandle fm r (FetchOutcome.decodeErr status)).2.status = 500 ∧
    (routerHandle fm r (FetchOutcome.decodeErr status)).2.body =
      Json.obj [("error", Json.str "Erro ao decodificar a resposta")] := by
  cases r <;> simp only [routeLabel, Option.some.injEq,
      reduceCtorEq] at h <;>
    first
    | exact absurd h (by simp)
    | (simp [routerHandle, middlewareWrap, appHandler, handleExternalService,
        clientGet, respondWithError, respondWithJSON, encodeResponse])

theorem proxy_decode_error_responds_500_witness :
    (routerHandle "http://localhost:8085" Route.externalService2
        (FetchOutcome.decodeErr 200)).2.status = 500 ∧
    (routerHandle "http://localhost:8085" Route.externalService2
        (FetchOutcome.decodeErr 200)).2.body =
      Json.obj [("error", Json.str "Erro ao decodificar a resposta")] :=
  proxy_decode_error_responds_500 "http://localhost:8085"
    Route.externalService2 "Erro ao chamar o serviço externo 2" 200 rfl

/-- C4: for every proxy route, when the outbound call returns HTTP 200
and the body decodes as a JSON object, the handler responds 200 with
exactly that object under the `data` field. -/
theorem proxy_decode_ok_responds_200_data (fm : String) (r : Route)
    (lbl : String) (m : List (String × Json))
    (h : routeLabel r = some lbl) :
    (routerHandle fm r (FetchOutcome.decodeOk 200 (Json.obj m))).2.status
      = 200 ∧
    (routerHandle fm r (FetchOutcome.decodeOk 200 (Json.obj m))).2.body =
      Json.obj [("data", Json.obj m)] := by
  cases r <;> simp only [routeLabel, Option.some.injEq,
      reduceCtorEq] at h <;>
    first
    | exact absurd h (by simp)
    | (simp [routerHandle, middlewareWrap, appHandler, handleExternalService,
        clientGet, respondWithJSON, encodeResponse])

theorem proxy_decode_ok_responds_200_data_witness :
    (routerHandle "http://localhost:8085" Route.externalService3
        (FetchOutcome.decodeOk 200
          (Json.obj [("id", Json.num 1)]))).2.status = 200 ∧
    (routerHandle "http://localhost:8085" Route.externalService3
        (FetchOutcome.decodeOk 200
          (Json.obj [("id", Json.num 1)]))).2.body =
      Json.obj [("data", Json.obj [("id", Json.num 1)])] :=
  proxy_decode_ok_responds_200_data "http://localhost:8085"
    Route.externalService3 "Erro ao chamar o serviço externo 3"
    [("id", Json.num 1)] rfl

/-- C9: `handleExternalService` never inspects the upstream status
code — whenever the body decodes, the reply is 200 with the decoded
value in `data`, for any upstream status (including 4xx/5xx). -/
theorem handler_ignores_upstream_status (url lbl : String) (s1 s2 : Nat)
    (d : Json) :
    handleExternalService url (FetchOutcome.decodeOk s1 d) lbl =
      handleExternalService url (FetchOutcome.decodeOk s2 d) lbl ∧
    (handleExternalService url (FetchOutcome.decodeOk s1 d) lbl).2.status
      = 200 ∧
    (handleExternalService url (FetchOutcome.decodeOk s1 d) lbl).2.body =
      Json.obj [("data", d)] := by
  refine ⟨rfl, rfl, ?_⟩
  simp [handleExternalService, clientGet, respondWithJSON, encodeResponse]

/-- C5: every outbound call through the client returned by
`GetHTTPClient` is a single transport attempt with no retry, and when
the process-wide default transport carries a bounded timeout, that
bound is exactly what governs the call — the client is instrumented
and adds neither a retry policy nor an unbounded override. -/
theorem client_single_attempt_bounded_timeout (t : Option Nat)
    (bound : Nat) (h : t = some bound) (url : String) (o : FetchOutcome) :
    effectiveTimeout (GetHTTPClient t) = some bound ∧
    (GetHTTPClient t).transport.instrumented = true ∧
    (clientGet url o).1.count (SpanEvent.netAttempt url) = 1 := by
  subst h
  refine ⟨rfl, rfl, ?_⟩
  simp [clientGet, List.count_cons]

theorem client_single_attempt_bounded_timeout_witness :
    effectiveTimeout (GetHTTPClient (some 30)) = some 30 ∧
    (GetHTTPClient (some 30)).transport.instrumented = true ∧
    (clientGet "http://localhost:8085/files"
        FetchOutcome.netErr).1.count
      (SpanEvent.netAttempt "http://localhost:8085/files") = 1 :=
  client_single_attempt_bounded_timeout (some 30) 30 rfl
    "http://localhost:8085/files" FetchOutcome.netErr

/-- C6 counterexample: with every environment variable unset (empty),
the endpoint URLs `StartAgent` hands to the trace and metric exporters
are the empty string — contrary to the claim, no non-empty default is
applied to the trace-sink or metrics-sink endpoint. -/
theorem config_endpoints_empty_when_unset :
    ¬ ((startAgentSettings (DefaultConfig
          (fun _ => ""))).traceExporterEndpointURL ≠ "" ∧
       (startAgentSettings (DefaultConfig
          (fun _ => ""))).metricExporterEndpointURL ≠ "") :=
  fun h => h.1 rfl

/-- C6 (amended): with the environment unset, the service name,
service version and deployment environment resolve to their documented
non-empty defaults, the listen port is the constant 3000, and the
file-manager base URL defaults to `http://localhost:8085`; the
trace-sink and metrics-sink endpoint URLs are passed through from the
environment unchanged, with no default. -/
theorem config_defaults_amended (env : String → String)
    (h : ∀ k, env k = "") :
    (startAgentSettings (DefaultConfig env)).serviceName =
        "default-service" ∧
    (startAgentSettings (DefaultConfig env)).serviceVersion = "1.0.0" ∧
    (startAgentSettings (DefaultConfig env)).deploymentEnvironment =
        "development" ∧
    (startAgentSettings (DefaultConfig env)).traceExporterEndpointURL =
        env "OTEL_EXPORTER_OTLP_TRACES_ENDPOINT" ∧
    (startAgentSettings (DefaultConfig env)).metricExporterEndpointURL =
        env "OTEL_EXPORTER_OTLP_METRICS_ENDPOINT" ∧
    mainPort = 3000 ∧
    mainFileManagerURL env = "http://localhost:8085" := by
  refine ⟨?_, ?_, ?_, rfl, rfl, rfl, ?_⟩
  · simp [startAgentSettings, DefaultConfig, h]
  · simp [startAgentSettings, DefaultConfig, h]
  · simp [startAgentSettings, DefaultConfig, h]
  · simp [mainFileManagerURL, h]

theorem config_defaults_amended_witness :
    (startAgentSettings (DefaultConfig (fun _ => ""))).serviceName =
        "default-service" ∧
    (startAgentSettings (DefaultConfig (fun _ => ""))).serviceVersion =
        "1.0.0" ∧
    (startAgentSettings
        (DefaultConfig (fun _ => ""))).deploymentEnvironment =
        "development" ∧
    (startAgentSettings
        (DefaultConfig (fun _ => ""))).traceExporterEndpointURL = "" ∧
    (startAgentSettings
        (DefaultConfig (fun _ => ""))).metricExporterEndpointURL = "" ∧
    mainPort = 3000 ∧
    mainFileManagerURL (fun _ => "") = "http://localhost:8085" :=
  config_defaults_amended (fun _ => "") (fun _ => rfl)

/-- The uniform envelope invariant: the serialized body is a JSON
object with exactly one field, and the status is 200, or 500 with the
single field being `error`. -/
def goodReply (rep : HttpReply) : Prop :=
  ∃ fields,
    rep.body = Json.obj fields ∧
    fields.length = 1 ∧
    (rep.status = 200 ∨
     (rep.status = 500 ∧ ∃ msg, fields = [("error", Json.str msg)]))

theorem goodReply_message (s : String) (h : s ≠ "") :
    goodReply (respondWithJSON 200 { message := s }) :=
  ⟨[("message", Json.str s)],
    by simp [respondWithJSON, encodeResponse, h], rfl, Or.inl rfl⟩

theorem goodReply_url (s : String) (h : s ≠ "") :
    goodReply (respondWithJSON 200 { url := s }) :=
  ⟨[("url", Json.str s)],
    by simp [respondWithJSON, encodeResponse, h], rfl, Or.inl rfl⟩

theorem goodReply_data (d : Json) :
    goodReply (respondWithJSON 200 { data := some d }) :=
  ⟨[("data", d)],
    by simp [respondWithJSON, encodeResponse], rfl, Or.inl rfl⟩

theorem goodReply_error (s : String) (h : s ≠ "") :
    goodReply (respondWithError 500 s) :=
  ⟨[("error", Json.str s)],
    by simp [respondWithError, respondWithJSON, encodeResponse, h],
    rfl, Or.inr ⟨rfl, s, rfl⟩⟩

theorem mainFileManagerURL_ne_empty (env : String → String) :
    mainFileManagerURL env ≠ "" := by
  unfold mainFileManagerURL
  split
  · simp
  · next h => exact h

/-- C7: every JSON response written by the service serializes exactly
one envelope field (the others are omitted), with status 200 on
success and 500 — carrying the `error` field — on handler-classified
failure. -/
theorem response_envelope_one_field (env : String → String) (r : Route)
    (o : FetchOutcome) :
    goodReply (routerHandle (mainFileManagerURL env) r o).2 := by
  have hfm := mainFileManagerURL_ne_empty env
  cases r <;> cases o <;>
    simp only [routerHandle, middlewareWrap, appHandler,
      handleExternalService, clientGet] <;>
    first
    | exact goodReply_message _ (by simp)
    | exact goodReply_url _ hfm
    | exact goodReply_error _ (by simp)
    | exact goodReply_data _

/-- C8: injecting a Context Carrier into outgoing headers through the
configured composite propagator and then extracting a carrier back
from those headers preserves the trace id. -/
theorem carrier_inject_extract_roundtrip (c : Carrier)
    (ht : '-' ∉ c.traceId) (hs : '-' ∉ c.spanId) :
    (extractCarrier (injectCarrier c)).map Carrier.traceId =
      some c.traceId := by
  have h : extractCarrier (injectCarrier c) =
      parseTraceparent (traceparentValue c) := rfl
  rw [h, parseTraceparent_traceparentValue c ht hs]
  rfl

theorem carrier_inject_extract_roundtrip_witness :
    (extractCarrier (injectCarrier
        { traceId := ['a', 'b'], spanId := ['c'], sampled := true })).map
      Carrier.traceId = some ['a', 'b'] :=
  carrier_inject_extract_roundtrip
    { traceId := ['a', 'b'], spanId := ['c'], sampled := true }
    (by decide) (by decide)

/-- C10: `ExecuteRequest` is atomic on construction failure — a
request-construction error is returned with no network call performed;
otherwise exactly one `client.Do` runs, on the constructed request,
and its result is returned unchanged. -/
theorem executeRequest_atomic (o : BuildOutcome)
    (doFn : String → FetchOutcome) :
    (∀ e, o = BuildOutcome.buildErr e →
      ExecuteRequest o doFn = ([], Except.error e)) ∧
    (∀ req, o = BuildOutcome.builtReq req →
      ExecuteRequest o doFn = ([req], Except.ok (doFn req))) := by
  constructor
  · intro e he
    subst he
    rfl
  · intro req hr
    subst hr
    rfl

theorem executeRequest_atomic_witness :
    ExecuteRequest (BuildOutcome.buildErr "parse error")
        (fun _ => FetchOutcome.netErr) = ([], Except.error "parse error") :=
  (executeRequest_atomic (BuildOutcome.buildErr "parse error")
      (fun _ => FetchOutcome.netErr)).1 "parse error" rfl
